import Mathlib

/-!
Verification development for the kikuyu-project prompt supply/selection
subsystem.  The definitions below are a shallow embedding of
`src/app/services/csv_prompt_manager.py` (class `CSVPromptManager`) and
`src/app/services/smart_selector.py` (classes `SmartPromptSelector`,
`CoverageAnalyzer`, `GapDetector`).

Modelling conventions:
* Python dicts holding the JSON cache become Lean structures; machine
  integers are `Nat`/`Int` (Python ints are unbounded, and the code clamps
  counters at 0 with `max(0, _)`, which `Nat` subtraction mirrors exactly).
* The persisted `prompts.json` file is `PersistentState`; the manager's
  instance field `self._used_csv_indices` is `MState.memIndices`.
  `load_cache` re-reads the file and overwrites `_used_csv_indices`
  (line 101 of the source); `save_cache` writes the cache plus
  `list(self._used_csv_indices)` back (line 147).  Timestamp-only metadata
  fields (`last_updated`, `last_refill`, `date_generated`) are omitted:
  no claim mentions them and they influence no control flow.
* I/O failure of `save_cache` is modelled by the boolean `saveOk`
  parameter: `true` means the write succeeds, `false` means it raises and
  the function returns `False` leaving the file untouched.
* `random.sample(population, k)` is modelled by an explicit `sample`
  function parameter; theorems that depend on its behaviour assume
  `SampleSpec` (distinct elements drawn from the population, exactly
  `min k |population|` of them), which is what `random.sample` guarantees.
* `hashlib.md5(text).hexdigest()[:12]` is modelled by an explicit
  deterministic `hash : String → String` parameter: the claims depend only
  on the id being a deterministic function of the text (so equal texts
  collide), never on concrete digest values.
-/

namespace CsvPromptManager

/-- One element of the `prompts` list in `prompts.json`, as built by
`CSVPromptManager._create_prompt_object` (fields `category` and `source`
are the constants `"csv_dataset"` for every entry and are omitted). -/
structure PromptEntry where
  id : String
  text : String
  usage_count : Nat
  csv_index : Nat
  deriving Repr, DecidableEq

/-- The `metadata` counters of the cache (timestamps omitted, and
`csv_used_indices` lives in `PersistentState` below, where the JSON file
stores it). -/
structure Metadata where
  total_generated : Nat
  total_used : Nat
  deriving Repr, DecidableEq

/-- The cache dictionary: `prompts`, `used_prompts` and the counters. -/
structure Cache where
  prompts : List PromptEntry
  used_prompts : List String
  metadata : Metadata
  deriving Repr, DecidableEq

/-- The content of the persisted `prompts.json` file: the cache plus the
persisted `metadata.csv_used_indices` set. -/
structure PersistentState where
  cache : Cache
  csvUsedIndices : Finset Nat
  deriving DecidableEq

/-- Manager state: the persisted file plus the in-memory instance field
`self._used_csv_indices`. -/
structure MState where
  disk : PersistentState
  memIndices : Finset Nat
  deriving DecidableEq

/-- Configuration captured in `__init__`: `MIN_CACHE_SIZE`,
`PROMPT_BATCH_SIZE`, and the filtered dataset rows `self._csv_rows`
returned by `_load_csv_data` (immutable for the process lifetime). -/
structure Config where
  min_cache_size : Nat
  batch_size : Nat
  csvRows : List String
  deriving DecidableEq

/-- `CSVPromptManager.load_cache` (lines 64-113): re-reads the persisted
file and overwrites `self._used_csv_indices` with the persisted set. -/
def load_cache (s : MState) : MState :=
  { s with memIndices := s.disk.csvUsedIndices }

/-- `CSVPromptManager.save_cache` (lines 132-157): on success the file
receives the cache plus `list(self._used_csv_indices)` and the call
returns `True`; on an I/O exception nothing is written and it returns
`False`. -/
def save_cache (saveOk : Bool) (s : MState) (c : Cache) : MState × Bool :=
  if saveOk then
    ({ disk := { cache := c, csvUsedIndices := s.memIndices },
       memIndices := s.memIndices }, true)
  else (s, false)

/-- `CSVPromptManager._create_prompt_object` (lines 52-62), with the id
produced by `_generate_prompt_id` modelled by the `hash` parameter. -/
def create_prompt_object (hash : String → String) (english_text : String)
    (csv_index : Nat) : PromptEntry :=
  { id := hash english_text, text := english_text,
    usage_count := 0, csv_index := csv_index }

/-- The list `[p for p in cache["prompts"] if p["id"] not in
cache["used_prompts"]]` computed in `get_next_prompt` (line 202). -/
def available_prompts (c : Cache) : List PromptEntry :=
  c.prompts.filter (fun p => !(c.used_prompts.contains p.id))

/-- The `for p in cache["prompts"]: if p["id"] == prompt_id: ...; break`
loops (lines 226-229, 328-331, 360-363): apply `f` to the usage count of
the first entry whose id matches, leave everything else unchanged. -/
def bump_first_usage (f : Nat → Nat) (x : String) :
    List PromptEntry → List PromptEntry
  | [] => []
  | p :: rest =>
    if p.id = x then { p with usage_count := f p.usage_count } :: rest
    else p :: bump_first_usage f x rest

/-- `list(available_csv_indices)` (line 275): the elements of a set of
dataset indices, listed in ascending order.  Python iterates the set in
an unspecified order; the arbitrary `sample` function given to
`refill_cache` absorbs that nondeterminism, so a canonical enumeration
loses no generality. -/
def set_to_list (n : Nat) (S : Finset Nat) : List Nat :=
  (List.range n).filter (fun i => decide (i ∈ S))

/-- `CSVPromptManager.refill_cache` (lines 237-308).  `sample` models
`random.sample`; the population handed to it is the set
`range(len(csv_data)) - self._used_csv_indices` listed via `set_to_list`.
`csvRows.getD idx ""` models `csv_data[idx]`; under `SampleSpec` every
sampled index is in range, so the default is never taken. -/
def refill_cache (hash : String → String)
    (sample : List Nat → Nat → List Nat) (saveOk : Bool) (cfg : Config)
    (force : Bool) (s : MState) : MState × Bool :=
  let s := load_cache s
  let cache := s.disk.cache
  if cfg.csvRows.isEmpty then (s, false)
  else
    let available_count : Int :=
      (cache.prompts.length : Int) - (cache.used_prompts.length : Int)
    if ¬force ∧ (cfg.min_cache_size : Int) ≤ available_count then (s, true)
    else
      let prompts_needed : Int :=
        max (cfg.batch_size : Int) ((cfg.min_cache_size : Int) - available_count)
      let available_csv_indices : Finset Nat :=
        Finset.range cfg.csvRows.length \ s.memIndices
      if available_csv_indices = ∅ then (s, false)
      else
        let k : Nat := (min prompts_needed (available_csv_indices.card : Int)).toNat
        let indices_to_use : List Nat :=
          sample (set_to_list cfg.csvRows.length available_csv_indices) k
        let new_prompts : List PromptEntry := indices_to_use.map
          (fun idx => create_prompt_object hash (cfg.csvRows.getD idx "") idx)
        let s := { s with memIndices := s.memIndices ∪ indices_to_use.toFinset }
        if new_prompts.isEmpty then (s, false)
        else
          let cache :=
            { cache with
              prompts := cache.prompts ++ new_prompts,
              metadata := { cache.metadata with
                total_generated := cache.metadata.total_generated + new_prompts.length } }
          save_cache saveOk s cache

/-- The auto-refill stage of `get_next_prompt` (lines 199-212): load the
cache, and when fewer than `min_cache_size` prompts are available run
`refill_cache`; on refill success the cache is re-loaded from disk, on
failure the previously loaded cache keeps being used.  Returns the state
together with the working cache. -/
def gnp_after_refill (hash : String → String)
    (sample : List Nat → Nat → List Nat) (saveOk : Bool) (cfg : Config)
    (s : MState) : MState × Cache :=
  let s := load_cache s
  let cache := s.disk.cache
  if (available_prompts cache).length < cfg.min_cache_size then
    let r := refill_cache hash sample saveOk cfg false s
    if r.2 then
      let s2 := load_cache r.1
      (s2, s2.disk.cache)
    else (r.1, cache)
  else (s, cache)

/-- `CSVPromptManager.get_next_prompt` (lines 189-235): after the
auto-refill stage, serve the first available prompt (a copy taken before
the usage-count increment), append its id to `used_prompts`, bump
`total_used` and the first matching entry's `usage_count`, and save
(the save result is ignored by the source, line 232). -/
def get_next_prompt (hash : String → String)
    (sample : List Nat → Nat → List Nat) (saveOk : Bool) (cfg : Config)
    (s : MState) : MState × Option PromptEntry :=
  let t := gnp_after_refill hash sample saveOk cfg s
  match available_prompts t.2 with
  | [] => (t.1, none)
  | p :: _ =>
    let cache :=
      { t.2 with
        used_prompts := t.2.used_prompts ++ [p.id],
        metadata := { t.2.metadata with total_used := t.2.metadata.total_used + 1 },
        prompts := bump_first_usage (fun n => n + 1) p.id t.2.prompts }
    ((save_cache saveOk t.1 cache).1, some p)

/-- `CSVPromptManager.mark_prompt_as_used` (lines 310-340). -/
def mark_prompt_as_used (saveOk : Bool) (prompt_id : String) (s : MState) :
    MState × Bool :=
  let s := load_cache s
  let c := s.disk.cache
  if prompt_id ∈ c.used_prompts then (s, true)
  else
    let c :=
      { c with
        used_prompts := c.used_prompts ++ [prompt_id],
        metadata := { c.metadata with total_used := c.metadata.total_used + 1 },
        prompts := bump_first_usage (fun n => n + 1) prompt_id c.prompts }
    save_cache saveOk s c

/-- `CSVPromptManager.return_prompt_to_pool` (lines 342-373): remove the
first occurrence of the id from `used_prompts`, clamp `total_used` and the
first matching entry's `usage_count` at 0 (`max(0, _ - 1)` is `Nat`
subtraction), save; an id that is not marked used is a no-op success. -/
def return_prompt_to_pool (saveOk : Bool) (prompt_id : String) (s : MState) :
    MState × Bool :=
  let s := load_cache s
  let c := s.disk.cache
  if prompt_id ∈ c.used_prompts then
    let c :=
      { c with
        used_prompts := c.used_prompts.erase prompt_id,
        metadata := { c.metadata with total_used := c.metadata.total_used - 1 },
        prompts := bump_first_usage (fun n => n - 1) prompt_id c.prompts }
    save_cache saveOk s c
  else (s, true)

/-- `CSVPromptManager.reset_cache` (lines 375-395). -/
def reset_cache (saveOk : Bool) (s : MState) : MState × Bool :=
  let s := load_cache s
  let c := s.disk.cache
  let c :=
    { c with
      used_prompts := [],
      metadata := { c.metadata with total_used := 0 },
      prompts := c.prompts.map (fun p => { p with usage_count := 0 }) }
  save_cache saveOk s c

/-- What Python's `random.sample(population, k)` guarantees on a
duplicate-free population: the result has no duplicates, draws from the
population, and has length `min k |population|` (the code always passes
`k ≤ |population|`, for which `random.sample` returns exactly `k`
elements). -/
def SampleSpec (sample : List Nat → Nat → List Nat) : Prop :=
  ∀ l k, l.Nodup →
    (sample l k).Nodup ∧ (∀ x ∈ sample l k, x ∈ l) ∧
      (sample l k).length = min k l.length

/-- A concrete sampler (take the first `k`), used to instantiate
witnesses. -/
def sampleTake (l : List Nat) (k : Nat) : List Nat := l.take k

/-- The `available_count` computed by `refill_cache` (line 256):
`len(cache["prompts"]) - len(cache["used_prompts"])`, a Python `int`. -/
def availInt (c : Cache) : Int :=
  (c.prompts.length : Int) - (c.used_prompts.length : Int)

/-- The unused dataset indices (line 266-267):
`set(range(len(csv_data))) - self._used_csv_indices`, as persisted. -/
def unusedSet (cfg : Config) (s : MState) : Finset Nat :=
  Finset.range cfg.csvRows.length \ s.disk.csvUsedIndices

/-- The sample size of a refill (lines 263, 274-277):
`min(max(batch_size, min_cache_size - available_count), |unused|)`. -/
def refill_sample_size (cfg : Config) (s : MState) : Nat :=
  (min (max (cfg.batch_size : Int)
            ((cfg.min_cache_size : Int) - availInt s.disk.cache))
       ((unusedSet cfg s).card : Int)).toNat

/-- The list of dataset indices a refill hands to `random.sample`'s
result (line 274-277): the sampler applied to the unused indices with
the computed sample size. -/
def refill_picks (sample : List Nat → Nat → List Nat) (cfg : Config)
    (s : MState) : List Nat :=
  sample (set_to_list cfg.csvRows.length (unusedSet cfg s))
    (refill_sample_size cfg s)

/-- The prompt objects a refill builds from the sampled indices
(lines 281-287). -/
def refill_new_prompts (hash : String → String)
    (sample : List Nat → Nat → List Nat) (cfg : Config) (s : MState) :
    List PromptEntry :=
  (refill_picks sample cfg s).map
    (fun i => create_prompt_object hash (cfg.csvRows.getD i "") i)

/-- `CSVPromptManager._load_csv_data` (lines 28-46).  `raw` models the
outcome of opening and reading the CSV file: `none` when the file is
missing or unreadable (the `open`/`csv` call raises), `some rows` with the
`English` column of each data row otherwise (`row.get('English', '')`
yields `""` when the column is absent).  The body is wrapped in
`try/except Exception`: a raised error is logged and the row list becomes
`[]` — the function never propagates an exception.  Kept rows are the
stripped texts longer than 10 characters. -/
def load_csv_data (raw : Option (List String)) : List String :=
  match raw with
  | none => []
  | some rows =>
    rows.filterMap (fun r =>
      let t := r.trim
      if t ≠ "" ∧ 10 < t.length then some t else none)

/-- The observable outcome of `_load_csv_data` as seen by its callers:
always a normal return (`Except.ok`), since every exception is caught
inside the function. -/
def load_csv_data_result (raw : Option (List String)) :
    Except String (List String) :=
  Except.ok (load_csv_data raw)

/-- Follows the words of the spec for claim C9, for comparison with the
source behaviour: "Fails with `DataSourceError` if the source is
missing/unreadable/empty after filtering." -/
def load_csv_data_specified (raw : Option (List String)) :
    Except String (List String) :=
  match raw with
  | none => Except.error "DataSourceError"
  | some rows =>
    let kept := rows.filterMap (fun r =>
      let t := r.trim
      if t ≠ "" ∧ 10 < t.length then some t else none)
    if kept.isEmpty then Except.error "DataSourceError" else Except.ok kept

/-! Concrete instances used by counterexamples and witnesses. -/

/-- A concrete stand-in for `_generate_prompt_id`'s deterministic hash. -/
def idHash : String → String := fun t => t

/-- Zeroed metadata. -/
def meta0 : Metadata := { total_generated := 0, total_used := 0 }

/-- Empty manager state: empty pool, empty used list, no admitted
dataset indices. -/
def state0 : MState :=
  { disk := { cache := { prompts := [], used_prompts := [], metadata := meta0 },
              csvUsedIndices := ∅ },
    memIndices := ∅ }

/-- One-sentence dataset with low-water-mark 1. -/
def cfg1 : Config :=
  { min_cache_size := 1, batch_size := 1, csvRows := ["the sun is hot today."] }

/-- Configuration that never triggers the auto-refill
(`min_cache_size = 0`). -/
def cfg0 : Config := { min_cache_size := 0, batch_size := 0, csvRows := [] }

/-- A pool entry for the serve witnesses. -/
def entry1 : PromptEntry :=
  { id := "hello there, friend.", text := "hello there, friend.",
    usage_count := 0, csv_index := 0 }

/-- State holding exactly `entry1`, unserved. -/
def state1 : MState :=
  { disk := { cache := { prompts := [entry1], used_prompts := [], metadata := meta0 },
              csvUsedIndices := ∅ },
    memIndices := ∅ }

/-- A state whose `used_prompts` list holds the same id twice — a cache
state reachable only by hand-editing `prompts.json`, but within the
quantification "for every cache state". -/
def dupUsedState : MState :=
  { disk := { cache := { prompts := [], used_prompts := ["a", "a"],
                         metadata := { total_generated := 0, total_used := 2 } },
              csvUsedIndices := ∅ },
    memIndices := ∅ }

/-- The single pool entry of the exhausted state below: already served
once. -/
def exhaustedEntry : PromptEntry :=
  { id := "the sun is hot today.", text := "the sun is hot today.",
    usage_count := 1, csv_index := 0 }

/-- The cache of `exhaustedState`. -/
def exhaustedCache : Cache :=
  { prompts := [exhaustedEntry], used_prompts := ["the sun is hot today."],
    metadata := meta0 }

/-- Exhausted manager state for `cfg1`. -/
def exhaustedState : MState :=
  { disk := { cache := exhaustedCache, csvUsedIndices := {0} },
    memIndices := {0} }

/-- Two pool entries built from the same sentence text (dataset rows 0
and 5 carrying the same sentence): their content-derived ids collide. -/
def entryA : PromptEntry := create_prompt_object idHash "good morning to you." 0

/-- Second entry with the same text, admitted later. -/
def entryB : PromptEntry := create_prompt_object idHash "good morning to you." 5

/-- State holding the two colliding entries, both unserved. -/
def dupTextState : MState :=
  { disk := { cache := { prompts := [entryA, entryB], used_prompts := [],
                         metadata := meta0 },
              csvUsedIndices := {0, 5} },
    memIndices := {0, 5} }

end CsvPromptManager

namespace SmartSelector

/-!
Shallow embedding of `src/app/services/smart_selector.py`.  The SQLAlchemy
tables become lists of records; `db.Float` columns become `ℚ` (the scoring
arithmetic is exact in the model — the claims are about the formulas, not
about binary rounding).  `Prompt.quality_score` is kept `Option ℚ` because
the code explicitly handles `None` (`prompt.quality_score or 0.8`) and SQL
comparisons against NULL exclude the row; `DomainCoverage`'s numeric
columns have non-null defaults (`models.py` lines 115-122) and the code
compares them directly, so they are plain `ℚ`.  `ORDER BY random() LIMIT 1`
and the `random.*` calls are modelled by the explicit `Rng` parameter.
-/

/-- The columns of `app.models.Prompt` consulted by the selector
(timestamps, keywords and free-text metadata omitted: no selection logic
reads them). -/
structure DPrompt where
  id : Nat
  text : String
  category : String
  difficulty_level : String
  source_type : String
  quality_score : Option ℚ
  usage_count : Nat
  status : String
  deriving Repr, DecidableEq

/-- The columns of `app.models.Translation` consulted by the selector. -/
structure DTranslation where
  id : Nat
  prompt_id : Nat
  user_id : Nat
  status : String
  deriving Repr, DecidableEq

/-- The columns of `app.models.DomainCoverage` consulted by the selector. -/
structure DCoverage where
  category : String
  target_count : Nat
  current_count : Nat
  completion_percentage : ℚ
  avg_quality_score : ℚ
  deriving Repr, DecidableEq

/-- The database visible to the selector: user ids plus the three tables
above. -/
structure DB where
  users : List Nat
  prompts : List DPrompt
  translations : List DTranslation
  coverage : List DCoverage
  deriving DecidableEq

/-- SQL `quality_score >= c` on a nullable column: NULL rows are
excluded. -/
def qge (q : Option ℚ) (c : ℚ) : Bool :=
  match q with
  | some v => c ≤ v
  | none => false

/-- The sources of randomness in the selector, made explicit:
`choose` models `.order_by(func.random()).first()`, `chooseQ` models
`.order_by(quality_score.desc(), func.random()).first()`, `chooseDQ`
models `.order_by(difficulty_level.asc(), quality_score.desc(),
func.random()).first()`, `uniform` is the `random.uniform(0, total_weight)`
draw and `tie` indexes the `random.choice` fallback. -/
structure Rng where
  choose : List DPrompt → Option DPrompt
  chooseQ : List DPrompt → Option DPrompt
  chooseDQ : List DPrompt → Option DPrompt
  uniform : ℚ
  tie : Nat

/-- The strategy dictionary built by
`SmartPromptSelector.determine_strategy` (lines 67-78); `stype` is the
`'type'` key. -/
structure Strategy where
  stype : String
  priority_categories : List String
  source_preference : Option String
  difficulty_target : String
  w_coverage_gaps : ℚ
  w_user_progress : ℚ
  w_quality_balance : ℚ
  w_randomness : ℚ
  deriving Repr, DecidableEq

/-- The default strategy dictionary (lines 67-78). -/
def defaultStrategy : Strategy :=
  { stype := "balanced", priority_categories := [], source_preference := none,
    difficulty_target := "basic",
    w_coverage_gaps := 0.4, w_user_progress := 0.3,
    w_quality_balance := 0.2, w_randomness := 0.1 }

/-- The dictionary returned by `CoverageAnalyzer.analyze_gaps`
(lines 348-387). -/
structure CoverageGaps where
  total_translations : Nat
  domain_coverage : List (String × ℚ)
  underrepresented_categories : List String
  quality_gaps : List String
  source_imbalance : List (String × Nat)
  deriving Repr, DecidableEq

/-- The top-level keys of the `analyze_gaps` dictionary.  The check
`preferred_category in coverage_gaps` in `determine_strategy` (line 88) is
a Python dict-key membership test against exactly these five strings. -/
def gapsKeys : List String :=
  ["total_translations", "domain_coverage", "underrepresented_categories",
   "quality_gaps", "source_imbalance"]

/-- `CoverageAnalyzer.analyze_gaps` (lines 348-387): approved-translation
count, per-domain completion map, categories under 50% completion, and the
per-source prompt counts (`quality_gaps` is initialised empty and never
filled). -/
def analyze_gaps (db : DB) : CoverageGaps :=
  { total_translations :=
      (db.translations.filter (fun t => t.status == "approved")).length,
    domain_coverage :=
      db.coverage.map (fun d => (d.category, d.completion_percentage)),
    underrepresented_categories :=
      (db.coverage.filter (fun d => decide (d.completion_percentage < 50))).map
        (fun d => d.category),
    quality_gaps := [],
    source_imbalance :=
      ((db.prompts.map (fun p => p.source_type)).dedup).map
        (fun src =>
          (src, (db.prompts.filter (fun p => p.source_type == src)).length)) }

/-- `GapDetector.analyze_source_distribution`'s
`corpus_percentage` entry, with the `.get('corpus_percentage', 0)` default
folded in: 0 when there are no prompts or no corpus prompts
(lines 431, 436-452). -/
def corpus_percentage (db : DB) : ℚ :=
  if db.prompts.length = 0 then 0
  else ((db.prompts.filter (fun p => p.source_type == "corpus")).length : ℚ)
    / (db.prompts.length : ℚ) * 100

/-- The dictionary returned by `GapDetector.detect_critical_gaps`
(lines 406-434); `user_engagement_drops` is never filled. -/
structure CriticalGaps where
  critical_gaps : List String
  quality_issues : List String
  source_imbalances : List String
  user_engagement_drops : List String
  deriving Repr, DecidableEq

/-- `GapDetector.detect_critical_gaps` (lines 406-434): categories with
completion under 25%, categories with average quality under 0.7, and the
corpus-share flag. -/
def detect_critical_gaps (db : DB) : CriticalGaps :=
  { critical_gaps :=
      (db.coverage.filter (fun d => decide (d.completion_percentage < 25))).map
        (fun d => d.category),
    quality_issues :=
      (db.coverage.filter (fun d => decide (d.avg_quality_score < 0.7))).map
        (fun d => d.category),
    source_imbalances :=
      if corpus_percentage db < 50 then ["insufficient_corpus_coverage"]
      else [],
    user_engagement_drops := [] }

/-- The `total_completed` entry of
`SmartPromptSelector.get_user_progress` (line 269): the count of ALL of
the user's translations, regardless of status.  The other entries of the
returned dict (`category_progress`, `recent_activity`, timestamps) are
never consulted by `determine_strategy`, which reads only
`user_progress.get('total_completed', 0)` (line 94). -/
def get_user_progress_total (db : DB) (uid : Nat) : Nat :=
  (db.translations.filter (fun t => t.user_id == uid)).length

/-- The count of the user's *approved* translations — what the spec calls
the requester's "accepted translations".  This is NOT what the code
computes (see `get_user_progress_total`); it is defined here to state
claim C7 in the spec's own terms. -/
def accepted_count (db : DB) (uid : Nat) : Nat :=
  (db.translations.filter
    (fun t => t.user_id == uid && t.status == "approved")).length

/-- `SmartPromptSelector.determine_strategy` (lines 63-106).  Branch
guards mirror Python truthiness: a non-empty `critical_gaps` list, a
non-`None` non-empty preferred category that is moreover a KEY of the
`analyze_gaps` dict (the `preferred_category in coverage_gaps` test of
line 88 checks dict keys, so it can only succeed on one of `gapsKeys`),
then the under-5 onboarding test. -/
def determine_strategy (gaps : CoverageGaps) (total_completed : Nat)
    (critical : CriticalGaps) (preferred : Option String) : Strategy :=
  if critical.critical_gaps ≠ [] then
    { defaultStrategy with
      stype := "critical_gap_filling",
      priority_categories := critical.critical_gaps,
      w_coverage_gaps := 0.7, w_user_progress := 0.2 }
  else if (match preferred with
           | some c => c != "" && gapsKeys.contains c
           | none => false) = true then
    { defaultStrategy with
      stype := "user_preference",
      priority_categories := [preferred.getD ""],
      w_user_progress := 0.5 }
  else if total_completed < 5 then
    { defaultStrategy with
      stype := "onboarding",
      difficulty_target := "basic",
      priority_categories := ["greetings", "conversation", "family"],
      source_preference := some "corpus" }
  else
    { defaultStrategy with
      priority_categories := gaps.underrepresented_categories.take 3 }

/-- `SmartPromptSelector.get_completed_prompt_ids` (lines 301-307):
distinct prompt ids of the user's translations. -/
def get_completed_prompt_ids (db : DB) (uid : Nat) : List Nat :=
  ((db.translations.filter (fun t => t.user_id == uid)).map
    (fun t => t.prompt_id)).dedup

/-- The base query of `execute_selection_strategy` (lines 115-120):
active prompts the user has not already translated (an empty completed
list applies no exclusion, which coincides with `∉ []`). -/
def base_pool (db : DB) (uid : Nat) : List DPrompt :=
  db.prompts.filter (fun p =>
    p.status == "active" && !((get_completed_prompt_ids db uid).contains p.id))

/-- `CoverageAnalyzer.get_category_priority_score` (lines 389-400):
0.8 for a category with no coverage record, else
`max(0.1, (100 - completion)/100)` (the source's `completion or 0` only
maps `None`/`0.0` to `0`, the identity on the non-null model). -/
def get_category_priority_score (db : DB) (category : String) : ℚ :=
  match db.coverage.find? (fun d => d.category == category) with
  | none => 0.8
  | some d => max 0.1 ((100 - d.completion_percentage) / 100)

/-- `SmartPromptSelector.calculate_candidate_score` (lines 235-260).
`prompt.quality_score or 0.8` yields 0.8 both for `None` and for a stored
`0.0` (Python falsiness). -/
def calculate_candidate_score (db : DB) (strat : Strategy) (p : DPrompt) : ℚ :=
  let coverage_score := get_category_priority_score db p.category
  let quality_score : ℚ :=
    match p.quality_score with
    | none => 0.8
    | some v => if v = 0 then 0.8 else v
  let usage_penalty : ℚ := min ((p.usage_count : ℚ) * 0.1) 0.5
  let source_bonus : ℚ :=
    if strat.source_preference = some p.source_type then 0.2
    else if p.source_type == "corpus" then 0.1
    else 0
  max 0 (strat.w_coverage_gaps * coverage_score
    + strat.w_quality_balance * quality_score
    + strat.w_randomness * (1 - usage_penalty)
    + source_bonus)

/-- Stable insertion of a scored candidate into a descending-by-score
list: the new element goes before the first strictly smaller score and
after every earlier element with an equal or larger score. -/
def insertByScore (x : DPrompt × ℚ) : List (DPrompt × ℚ) → List (DPrompt × ℚ)
  | [] => [x]
  | y :: ys => if y.2 ≤ x.2 then x :: y :: ys else y :: insertByScore x ys

/-- `scored_candidates.sort(key=lambda x: x[1], reverse=True)`
(line 215): Python's sort is stable, and a stable descending sort is the
unique reordering that is descending by score and keeps tied elements in
their original order — which this structural insertion sort produces. -/
def sortByScoreDesc : List (DPrompt × ℚ) → List (DPrompt × ℚ)
  | [] => []
  | x :: xs => insertByScore x (sortByScoreDesc xs)

/-- The cumulative weighted-random walk of `select_balanced`
(lines 225-231): advance the cumulative weight and return the first
candidate at which it reaches the drawn value. -/
def weightedPick (r : ℚ) : ℚ → List (DPrompt × ℚ) → Option DPrompt
  | _, [] => none
  | cum, (p, sc) :: rest =>
    if r ≤ cum + sc then some p else weightedPick r (cum + sc) rest

/-- `SmartPromptSelector.select_balanced` (lines 196-233).  The
`base_query.first()` fallback (line 206) has no ORDER BY and is modelled
as the first row in insertion order. -/
def select_balanced (rng : Rng) (db : DB) (base : List DPrompt)
    (strat : Strategy) : Option DPrompt :=
  let candidates := base.filter (fun p => qge p.quality_score 0.7)
  if candidates.isEmpty then base.head?
  else
    let scored := candidates.map (fun p => (p, calculate_candidate_score db strat p))
    let sorted := sortByScoreDesc scored
    let top := sorted.take (max 1 (scored.length / 5))
    let total_weight := (top.map (fun x => x.2)).sum
    if total_weight = 0 then (top.get? (rng.tie % top.length)).map (fun x => x.1)
    else
      match weightedPick rng.uniform 0 top with
      | some p => some p
      | none => (top.head?).map (fun x => x.1)

/-- `SmartPromptSelector.select_for_onboarding` (lines 179-194). -/
def select_for_onboarding (rng : Rng) (base : List DPrompt)
    (strat : Strategy) : Option DPrompt :=
  rng.choose (base.filter (fun p =>
    strat.priority_categories.contains p.category
    && p.difficulty_level == "basic"
    && qge p.quality_score 0.85
    && (p.source_type == "corpus" || p.source_type == "conversation")))

/-- `SmartPromptSelector.select_for_critical_gaps` (lines 135-162). -/
def select_for_critical_gaps (rng : Rng) (base : List DPrompt)
    (strat : Strategy) : Option DPrompt :=
  match rng.choose (base.filter (fun p =>
    strat.priority_categories.contains p.category
    && qge p.quality_score 0.8
    && (p.source_type == "corpus" || p.source_type == "community"))) with
  | some p => some p
  | none =>
    rng.chooseQ (base.filter (fun p =>
      strat.priority_categories.contains p.category))

/-- `SmartPromptSelector.select_for_user_preference` (lines 164-177). -/
def select_for_user_preference (rng : Rng) (base : List DPrompt)
    (strat : Strategy) : Option DPrompt :=
  rng.chooseDQ (base.filter (fun p =>
    p.category == strat.priority_categories.headD ""))

/-- `SmartPromptSelector.execute_selection_strategy` (lines 108-133). -/
def execute_selection_strategy (rng : Rng) (db : DB) (uid : Nat)
    (strat : Strategy) : Option DPrompt :=
  let base := base_pool db uid
  if strat.stype == "critical_gap_filling" then
    select_for_critical_gaps rng base strat
  else if strat.stype == "user_preference" then
    select_for_user_preference rng base strat
  else if strat.stype == "onboarding" then
    select_for_onboarding rng base strat
  else select_balanced rng db base strat

/-- `SmartPromptSelector.select_next_prompt` (lines 28-61), returning the
selected `Prompt` row.  The trailing `record_prompt_selection`
(usage-count increment and timestamp commit) and `format_prompt_response`
(field projection) do not alter the selected row's `category`,
`difficulty_level`, `source_type` or `quality_score`, which is all the
claims quantify over. -/
def select_next_prompt (rng : Rng) (db : DB) (uid : Nat)
    (preferred : Option String) : Option DPrompt :=
  if uid ∈ db.users then
    execute_selection_strategy rng db uid
      (determine_strategy (analyze_gaps db) (get_user_progress_total db uid)
        (detect_critical_gaps db) preferred)
  else none

/-- What `.order_by(func.random()).first()` guarantees: any returned row
belongs to the queried row set. -/
def ChooseSpec (f : List DPrompt → Option DPrompt) : Prop :=
  ∀ l p, f l = some p → p ∈ l

/-- A concrete deterministic `Rng` (always the first row, zero draws),
used to instantiate witnesses and counterexamples. -/
def headRng : Rng :=
  { choose := List.head?, chooseQ := List.head?, chooseDQ := List.head?,
    uniform := 0, tie := 0 }

/-! Concrete instances used by counterexamples and witnesses. -/

/-- An active non-beginner prompt outside the onboarding allowlist. -/
def weatherPrompt : DPrompt :=
  { id := 10, text := "It rains in April.", category := "weather",
    difficulty_level := "advanced", source_type := "community",
    quality_score := some 0.9, usage_count := 0, status := "active" }

/-- One rejected translation by user 1 of some other prompt. -/
def rejectedTr (i : Nat) : DTranslation :=
  { id := i, prompt_id := 99, user_id := 1, status := "rejected" }

/-- Database for the C7 counterexample: user 1 has five rejected (zero
accepted) translations; the only coverage record sits at 50% completion,
so there is no critical gap; the only active prompt is
`weatherPrompt`. -/
def db7 : DB :=
  { users := [1], prompts := [weatherPrompt],
    translations :=
      [rejectedTr 1, rejectedTr 2, rejectedTr 3, rejectedTr 4, rejectedTr 5],
    coverage :=
      [{ category := "weather", target_count := 100, current_count := 50,
         completion_percentage := 50, avg_quality_score := 0.9 }] }

/-- A beginner-friendly corpus prompt inside the onboarding allowlist. -/
def greetingPrompt : DPrompt :=
  { id := 3, text := "Good morning.", category := "greetings",
    difficulty_level := "basic", source_type := "corpus",
    quality_score := some 0.9, usage_count := 0, status := "active" }

/-- Database for the C7 witness: a brand-new user 2 (no translations) and
one onboarding-eligible prompt. -/
def db7b : DB :=
  { users := [2], prompts := [greetingPrompt], translations := [],
    coverage := [] }

/-- A corpus-source candidate for the C8 counterexample. -/
def farmingPrompt : DPrompt :=
  { id := 20, text := "We plant maize in March.", category := "farming",
    difficulty_level := "basic", source_type := "corpus",
    quality_score := some 0.9, usage_count := 0, status := "active" }

/-- Database for the C8 instances: one coverage record at 60%
completion. -/
def db8 : DB :=
  { users := [], prompts := [farmingPrompt], translations := [],
    coverage :=
      [{ category := "farming", target_count := 100, current_count := 60,
         completion_percentage := 60, avg_quality_score := 0.8 }] }

/-- A community-source candidate (no source bonus) for the C8 witness. -/
def marketPrompt : DPrompt :=
  { id := 21, text := "The market opens early.", category := "farming",
    difficulty_level := "basic", source_type := "community",
    quality_score := some 0.9, usage_count := 3, status := "active" }

end SmartSelector

namespace CsvPromptManager

theorem sampleTake_spec : SampleSpec sampleTake := by
  intro l k hl
  refine ⟨hl.sublist (List.take_sublist k l), ?_, List.length_take k l⟩
  intro x hx
  exact List.mem_of_mem_take hx

end CsvPromptManager

namespace SmartSelector

theorem headRng_choose_spec : ChooseSpec headRng.choose := by
  intro l p hp
  exact List.mem_of_mem_head? hp

end SmartSelector


namespace CsvPromptManager

/-! Helper lemmas about the embedded operations. -/

theorem load_cache_disk (s : MState) : (load_cache s).disk = s.disk := rfl

theorem load_cache_mem (s : MState) :
    (load_cache s).memIndices = s.disk.csvUsedIndices := rfl

/-- No code path of `refill_cache` touches `used_prompts`. -/
theorem refill_used_prompts (hash : String → String)
    (sample : List Nat → Nat → List Nat) (saveOk : Bool) (cfg : Config)
    (force : Bool) (s : MState) :
    (refill_cache hash sample saveOk cfg force s).1.disk.cache.used_prompts
      = s.disk.cache.used_prompts := by
  simp only [refill_cache, save_cache, load_cache]
  split_ifs <;> rfl

/-- A `refill_cache` call that reports failure has not persisted
anything: the file is exactly the pre-call file. -/
theorem refill_false_disk (hash : String → String)
    (sample : List Nat → Nat → List Nat) (saveOk : Bool) (cfg : Config)
    (force : Bool) (s : MState)
    (h : (refill_cache hash sample saveOk cfg force s).2 = false) :
    (refill_cache hash sample saveOk cfg force s).1.disk = s.disk := by
  simp only [refill_cache, save_cache, load_cache] at h ⊢
  split_ifs at h ⊢ <;> simp_all

/-- `refill_cache` never removes persisted dataset indices. -/
theorem refill_disk_indices_mono (hash : String → String)
    (sample : List Nat → Nat → List Nat) (saveOk : Bool) (cfg : Config)
    (force : Bool) (s : MState) :
    s.disk.csvUsedIndices
      ⊆ (refill_cache hash sample saveOk cfg force s).1.disk.csvUsedIndices := by
  simp only [refill_cache, save_cache, load_cache]
  split_ifs <;> first
    | exact Finset.Subset.refl _
    | exact Finset.subset_union_left

/-- `refill_cache` never removes in-memory dataset indices either. -/
theorem refill_mem_indices_mono (hash : String → String)
    (sample : List Nat → Nat → List Nat) (saveOk : Bool) (cfg : Config)
    (force : Bool) (s : MState) :
    s.disk.csvUsedIndices
      ⊆ (refill_cache hash sample saveOk cfg force s).1.memIndices := by
  simp only [refill_cache, save_cache, load_cache]
  split_ifs <;> first
    | exact Finset.Subset.refl _
    | exact Finset.subset_union_left

end CsvPromptManager

namespace CsvPromptManager

/-- The working cache after the auto-refill stage carries the pre-call
`used_prompts` list: refilling only appends fresh prompts. -/
theorem gnp_after_refill_used (hash : String → String)
    (sample : List Nat → Nat → List Nat) (saveOk : Bool) (cfg : Config)
    (s : MState) :
    (gnp_after_refill hash sample saveOk cfg s).2.used_prompts
      = s.disk.cache.used_prompts := by
  simp only [gnp_after_refill, load_cache]
  split_ifs
  · exact refill_used_prompts hash sample saveOk cfg false _
  · rfl
  · rfl

/-- After the auto-refill stage the persisted dataset-index set has not
shrunk. -/
theorem gnp_after_refill_disk_indices_mono (hash : String → String)
    (sample : List Nat → Nat → List Nat) (saveOk : Bool) (cfg : Config)
    (s : MState) :
    s.disk.csvUsedIndices
      ⊆ (gnp_after_refill hash sample saveOk cfg s).1.disk.csvUsedIndices := by
  simp only [gnp_after_refill, load_cache]
  split_ifs
  · exact refill_disk_indices_mono hash sample saveOk cfg false _
  · exact refill_disk_indices_mono hash sample saveOk cfg false _
  · exact Finset.Subset.refl _

/-- After the auto-refill stage the in-memory dataset-index set contains
every pre-call persisted index. -/
theorem gnp_after_refill_mem_indices_mono (hash : String → String)
    (sample : List Nat → Nat → List Nat) (saveOk : Bool) (cfg : Config)
    (s : MState) :
    s.disk.csvUsedIndices
      ⊆ (gnp_after_refill hash sample saveOk cfg s).1.memIndices := by
  simp only [gnp_after_refill, load_cache]
  split_ifs
  · exact refill_disk_indices_mono hash sample saveOk cfg false _
  · exact refill_mem_indices_mono hash sample saveOk cfg false _
  · exact Finset.Subset.refl _

/-- Membership in `available_prompts` unfolded. -/
theorem mem_available_prompts (c : Cache) (p : PromptEntry) :
    p ∈ available_prompts c ↔ p ∈ c.prompts ∧ p.id ∉ c.used_prompts := by
  simp [available_prompts]

/-- C1 (no double-serve): for every cache state, a prompt returned by
`get_next_prompt` has an id that is not in `used_prompts`, the call
appends exactly that id to `used_prompts`, and consequently no id
currently marked used is ever the id of the returned prompt.  Persistence
is taken to succeed (`saveOk = true`); the refill stage never unmarks a
used id. -/
theorem no_double_serve (hash : String → String)
    (sample : List Nat → Nat → List Nat) (cfg : Config) (s : MState)
    (p : PromptEntry)
    (h : (get_next_prompt hash sample true cfg s).2 = some p) :
    p.id ∉ s.disk.cache.used_prompts ∧
    (get_next_prompt hash sample true cfg s).1.disk.cache.used_prompts
      = s.disk.cache.used_prompts ++ [p.id] ∧
    ∀ x ∈ s.disk.cache.used_prompts, p.id ≠ x := by
  have hused := gnp_after_refill_used hash sample true cfg s
  simp only [get_next_prompt] at h ⊢
  cases hav : available_prompts (gnp_after_refill hash sample true cfg s).2 with
  | nil => rw [hav] at h; simp at h
  | cons q rest =>
    rw [hav] at h
    dsimp only at h ⊢
    have hqp : q = p := by simpa using h
    subst hqp
    have hmem : q ∈ available_prompts (gnp_after_refill hash sample true cfg s).2 := by
      rw [hav]; exact List.mem_cons_self q rest
    have hnot : q.id ∉ s.disk.cache.used_prompts := by
      have := (mem_available_prompts _ q).mp hmem
      rw [hused] at this
      exact this.2
    refine ⟨hnot, ?_, ?_⟩
    · simp [save_cache, hused]
    · intro x hx hqx
      exact hnot (hqx ▸ hx)

end CsvPromptManager

namespace CsvPromptManager

/-- When every dataset index is already admitted, `refill_cache` leaves
the persisted file untouched: either the no-op early return fires or the
empty candidate set aborts the refill. -/
theorem refill_exhausted_disk (hash : String → String)
    (sample : List Nat → Nat → List Nat) (saveOk : Bool) (cfg : Config)
    (force : Bool) (s : MState)
    (hcsv : ∀ i < cfg.csvRows.length, i ∈ s.disk.csvUsedIndices) :
    (refill_cache hash sample saveOk cfg force s).1.disk = s.disk := by
  have hsub : Finset.range cfg.csvRows.length ⊆ s.disk.csvUsedIndices :=
    fun i hi => hcsv i (Finset.mem_range.mp hi)
  have hemp : Finset.range cfg.csvRows.length \ s.disk.csvUsedIndices = ∅ :=
    Finset.sdiff_eq_empty_iff_subset.mpr hsub
  simp only [refill_cache, save_cache, load_cache]
  split_ifs <;> first
    | rfl
    | exact absurd hemp (by assumption)

/-- Under dataset exhaustion the auto-refill stage changes neither the
persisted file nor the working cache. -/
theorem gnp_exhausted (hash : String → String)
    (sample : List Nat → Nat → List Nat) (saveOk : Bool) (cfg : Config)
    (s : MState)
    (hcsv : ∀ i < cfg.csvRows.length, i ∈ s.disk.csvUsedIndices) :
    (gnp_after_refill hash sample saveOk cfg s).1.disk = s.disk ∧
    (gnp_after_refill hash sample saveOk cfg s).2 = s.disk.cache := by
  have hr := refill_exhausted_disk hash sample saveOk cfg false (load_cache s) hcsv
  simp only [gnp_after_refill, load_cache]
  simp only [load_cache] at hr
  split_ifs with h1 h2
  · exact ⟨hr, by rw [hr]⟩
  · exact ⟨hr, rfl⟩
  · exact ⟨rfl, rfl⟩

/-- Core of C4: with the dataset exhausted and every pool entry marked
used, `get_next_prompt` returns `none` and leaves the persisted file
untouched. -/
theorem gnp_none_aux (hash : String → String)
    (sample : List Nat → Nat → List Nat) (saveOk : Bool) (cfg : Config)
    (s : MState)
    (hcsv : ∀ i < cfg.csvRows.length, i ∈ s.disk.csvUsedIndices)
    (hpool : ∀ p ∈ s.disk.cache.prompts, p.id ∈ s.disk.cache.used_prompts) :
    (get_next_prompt hash sample saveOk cfg s).2 = none ∧
    (get_next_prompt hash sample saveOk cfg s).1.disk = s.disk := by
  obtain ⟨hd, hc⟩ := gnp_exhausted hash sample saveOk cfg s hcsv
  have hav : available_prompts (gnp_after_refill hash sample saveOk cfg s).2 = [] := by
    rw [hc]
    refine List.filter_eq_nil_iff.mpr ?_
    intro a ha
    simpa using hpool a ha
  simp only [get_next_prompt]
  rw [hav]
  exact ⟨rfl, hd⟩

/-- C4 (exhaustion terminality): once every dataset index is in the
used-indices set and every pool entry's id is marked used,
`get_next_prompt` serves nothing, changes no persisted state, and a
repeated call again serves nothing. -/
theorem exhaustion_terminality (hash : String → String)
    (sample : List Nat → Nat → List Nat) (saveOk : Bool) (cfg : Config)
    (s : MState)
    (hcsv : ∀ i < cfg.csvRows.length, i ∈ s.disk.csvUsedIndices)
    (hpool : ∀ p ∈ s.disk.cache.prompts, p.id ∈ s.disk.cache.used_prompts) :
    (get_next_prompt hash sample saveOk cfg s).2 = none ∧
    (get_next_prompt hash sample saveOk cfg s).1.disk = s.disk ∧
    (get_next_prompt hash sample saveOk cfg
        (get_next_prompt hash sample saveOk cfg s).1).2 = none := by
  obtain ⟨h1, h2⟩ := gnp_none_aux hash sample saveOk cfg s hcsv hpool
  refine ⟨h1, h2, ?_⟩
  have hcsv2 : ∀ i < cfg.csvRows.length,
      i ∈ (get_next_prompt hash sample saveOk cfg s).1.disk.csvUsedIndices := by
    rw [h2]; exact hcsv
  have hpool2 : ∀ p ∈ (get_next_prompt hash sample saveOk cfg s).1.disk.cache.prompts,
      p.id ∈ (get_next_prompt hash sample saveOk cfg s).1.disk.cache.used_prompts := by
    rw [h2]; exact hpool
  exact (gnp_none_aux hash sample saveOk cfg _ hcsv2 hpool2).1

end CsvPromptManager

namespace CsvPromptManager

/-- C5 counterexample: a refill over a fresh one-sentence dataset whose
save fails returns `False`, yet the in-memory used-dataset-indices set
has grown from `∅` to `{0}` — `self._used_csv_indices.add(idx)`
(line 287) is not rolled back when `save_cache` fails (line 296-301), so
the in-memory state at return time differs from the pre-refill state,
contradicting the claim's rollback. -/
theorem refill_rollback_counterexample :
    (refill_cache idHash sampleTake false cfg1 false state0).2 = false ∧
    (refill_cache idHash sampleTake false cfg1 false state0).1.memIndices
      ≠ state0.memIndices := by
  constructor
  · decide
  · decide

/-- C5 amended: whenever `refill_cache` returns `False`, nothing is
persisted — the file, hence the pool entries, `used_prompts` and the
metadata counters, is exactly the pre-refill file; the in-memory
used-dataset-indices set however is only guaranteed not to have lost
indices: on a save failure it retains the freshly sampled indices
(it is restored from disk by the next `load_cache`). -/
theorem refill_failure_preserves_persisted_state (hash : String → String)
    (sample : List Nat → Nat → List Nat) (saveOk : Bool) (cfg : Config)
    (force : Bool) (s : MState)
    (h : (refill_cache hash sample saveOk cfg force s).2 = false) :
    (refill_cache hash sample saveOk cfg force s).1.disk = s.disk ∧
    s.disk.csvUsedIndices
      ⊆ (refill_cache hash sample saveOk cfg force s).1.memIndices :=
  ⟨refill_false_disk hash sample saveOk cfg force s h,
   refill_mem_indices_mono hash sample saveOk cfg force s⟩

/-- Witness for the amended C5 at the concrete failing refill. -/
theorem refill_failure_witness :
    (refill_cache idHash sampleTake false cfg1 false state0).2 = false ∧
    ((refill_cache idHash sampleTake false cfg1 false state0).1.disk = state0.disk ∧
     state0.disk.csvUsedIndices
       ⊆ (refill_cache idHash sampleTake false cfg1 false state0).1.memIndices) :=
  ⟨by decide,
   refill_failure_preserves_persisted_state idHash sampleTake false cfg1 false
     state0 (by decide)⟩

/-- C6 counterexample: on a cache state whose `used_prompts` list holds
the id `"a"` twice, two consecutive `return_prompt_to_pool("a")` calls
remove both occurrences (and decrement `total_used` twice), while a
single call removes only the first — the final states differ, so the
claim's unconditional idempotence fails. -/
theorem return_twice_counterexample :
    (return_prompt_to_pool true "a"
        (return_prompt_to_pool true "a" dupUsedState).1).1
      ≠ (return_prompt_to_pool true "a" dupUsedState).1 := by
  decide

end CsvPromptManager

namespace CsvPromptManager

theorem bump_bump (f g : Nat → Nat) (x : String) (l : List PromptEntry) :
    bump_first_usage f x (bump_first_usage g x l)
      = bump_first_usage (fun n => f (g n)) x l := by
  induction l with
  | nil => rfl
  | cons p rest ih =>
    by_cases hp : p.id = x
    · simp [bump_first_usage, hp]
    · simp [bump_first_usage, hp, ih]

theorem bump_id (x : String) (l : List PromptEntry) :
    bump_first_usage (fun n => n) x l = l := by
  induction l with
  | nil => rfl
  | cons p rest ih =>
    unfold bump_first_usage
    by_cases hp : p.id = x
    · rw [if_pos hp]
    · rw [if_neg hp, ih]

theorem bump_append_ne (f : Nat → Nat) (x : String) (A l : List PromptEntry)
    (hA : ∀ q ∈ A, q.id ≠ x) :
    bump_first_usage f x (A ++ l) = A ++ bump_first_usage f x l := by
  induction A with
  | nil => rfl
  | cons q rest ih =>
    have hq : q.id ≠ x := hA q (List.mem_cons_self q rest)
    simp only [List.cons_append, bump_first_usage, if_neg hq]
    exact congrArg (fun t => q :: t)
      (ih (fun r hr => hA r (List.mem_cons_of_mem q hr)))

/-- When the pool is at or above the low-water mark the auto-refill stage
is skipped. -/
theorem gnp_after_refill_no_refill (hash : String → String)
    (sample : List Nat → Nat → List Nat) (saveOk : Bool) (cfg : Config)
    (s : MState)
    (hmin : cfg.min_cache_size ≤ (available_prompts s.disk.cache).length) :
    gnp_after_refill hash sample saveOk cfg s = (load_cache s, s.disk.cache) := by
  simp only [gnp_after_refill, load_cache]
  rw [if_neg (by omega)]

end CsvPromptManager

namespace CsvPromptManager

theorem save_cache_true (s : MState) (c : Cache) :
    save_cache true s c
      = ({ disk := { cache := c, csvUsedIndices := s.memIndices },
           memIndices := s.memIndices }, true) := rfl

/-- C6 amended (idempotent return): for every cache state in which the
id occurs at most once in `used_prompts` — which holds for every state
the manager itself produces, since ids are only appended when absent —
returning twice equals returning once and both calls report success;
returning an id that is not marked used changes nothing beyond the
`load_cache` refresh and reports success; and a return matching a
`get_next_prompt` serve restores the persisted state exactly (the serve's
usage-count increment is undone with floor 0). -/
theorem return_prompt_idempotent_amended (hash : String → String)
    (sample : List Nat → Nat → List Nat) (cfg : Config) (x : String)
    (s : MState)
    (hcount : s.disk.cache.used_prompts.count x ≤ 1) :
    ((return_prompt_to_pool true x (return_prompt_to_pool true x s).1).1
        = (return_prompt_to_pool true x s).1 ∧
      (return_prompt_to_pool true x s).2 = true ∧
      (return_prompt_to_pool true x (return_prompt_to_pool true x s).1).2 = true) ∧
    (x ∉ s.disk.cache.used_prompts →
      (return_prompt_to_pool true x s).1 = load_cache s) ∧
    (∀ p : PromptEntry,
      cfg.min_cache_size ≤ (available_prompts s.disk.cache).length →
      (get_next_prompt hash sample true cfg s).2 = some p →
      (return_prompt_to_pool true p.id
          (get_next_prompt hash sample true cfg s).1).1.disk = s.disk) := by
  refine ⟨?_, ?_, ?_⟩
  · by_cases hmem : x ∈ s.disk.cache.used_prompts
    · have hpos : 0 < s.disk.cache.used_prompts.count x :=
        List.count_pos_iff.mpr hmem
      have hc1 : s.disk.cache.used_prompts.count x = 1 :=
        le_antisymm hcount hpos
      have hx2 : x ∉ s.disk.cache.used_prompts.erase x := by
        intro hx
        have hp2 := List.count_pos_iff.mpr hx
        rw [List.count_erase_self, hc1] at hp2
        omega
      simp only [return_prompt_to_pool, load_cache, save_cache_true,
        if_pos hmem]
      rw [if_neg hx2]
      refine ⟨?_, ?_, ?_⟩ <;> trivial
    · simp only [return_prompt_to_pool, load_cache, if_neg hmem]
      refine ⟨?_, ?_, ?_⟩ <;> trivial
  · intro hmem
    simp only [return_prompt_to_pool, load_cache, if_neg hmem]
  · intro p hmin hserve
    rw [get_next_prompt, gnp_after_refill_no_refill hash sample true cfg s hmin]
      at hserve ⊢
    cases hav : available_prompts s.disk.cache with
    | nil => rw [hav] at hserve; simp at hserve
    | cons q rest =>
      rw [hav] at hserve
      dsimp only at hserve ⊢
      have hqp : q = p := by simpa using hserve
      subst hqp
      have hmemq : q ∈ available_prompts s.disk.cache := by
        rw [hav]; exact List.mem_cons_self q rest
      have hnot : q.id ∉ s.disk.cache.used_prompts :=
        ((mem_available_prompts _ q).mp hmemq).2
      have hin : q.id ∈ s.disk.cache.used_prompts ++ [q.id] :=
        List.mem_append_right _ (List.mem_singleton.mpr rfl)
      rw [save_cache_true]
      simp only [return_prompt_to_pool, load_cache, save_cache_true]
      rw [if_pos hin]
      have herase : (s.disk.cache.used_prompts ++ [q.id]).erase q.id
          = s.disk.cache.used_prompts := by
        rw [List.erase_append_right _ hnot, List.erase_cons_head,
          List.append_nil]
      have hbump : bump_first_usage (fun n => n - 1) q.id
          (bump_first_usage (fun n => n + 1) q.id s.disk.cache.prompts)
            = s.disk.cache.prompts := by
        rw [bump_bump]
        have hfun : (fun n : Nat => n + 1 - 1) = fun n : Nat => n :=
          funext fun n => Nat.add_sub_cancel n 1
        rw [hfun, bump_id]
      simp only [herase, hbump, Nat.add_sub_cancel]

end CsvPromptManager

namespace CsvPromptManager

/-- Witness for the amended C6 on a concrete one-entry cache. -/
theorem return_prompt_idempotent_witness :
    state1.disk.cache.used_prompts.count "a" ≤ 1 ∧
    ((return_prompt_to_pool true "a"
        (return_prompt_to_pool true "a" state1).1).1
      = (return_prompt_to_pool true "a" state1).1) ∧
    ((get_next_prompt idHash sampleTake true cfg0 state1).2 = some entry1) ∧
    (return_prompt_to_pool true entry1.id
        (get_next_prompt idHash sampleTake true cfg0 state1).1).1.disk
      = state1.disk :=
  ⟨by decide,
   (return_prompt_idempotent_amended idHash sampleTake cfg0 "a" state1
     (by decide)).1.1,
   by decide,
   (return_prompt_idempotent_amended idHash sampleTake cfg0 "a" state1
     (by decide)).2.2 entry1 (by decide) (by decide)⟩

end CsvPromptManager

namespace CsvPromptManager

theorem set_to_list_nodup (n : Nat) (S : Finset Nat) :
    (set_to_list n S).Nodup :=
  (List.nodup_range n).filter _

theorem mem_set_to_list (n : Nat) (S : Finset Nat)
    (hS : S ⊆ Finset.range n) (x : Nat) :
    x ∈ set_to_list n S ↔ x ∈ S := by
  simp only [set_to_list, List.mem_filter, List.mem_range,
    decide_eq_true_eq]
  constructor
  · exact fun h => h.2
  · exact fun h => ⟨Finset.mem_range.mp (hS h), h⟩

theorem set_to_list_length (n : Nat) (S : Finset Nat)
    (hS : S ⊆ Finset.range n) :
    (set_to_list n S).length = S.card := by
  have hfin : (set_to_list n S).toFinset = S := by
    ext a
    rw [List.mem_toFinset, mem_set_to_list n S hS]
  have hcard := List.toFinset_card_of_nodup (set_to_list_nodup n S)
  rw [hfin] at hcard
  exact hcard.symm

theorem return_indices_eq (saveOk : Bool) (x : String) (s : MState) :
    (return_prompt_to_pool saveOk x s).1.disk.csvUsedIndices
      = s.disk.csvUsedIndices := by
  simp only [return_prompt_to_pool, load_cache, save_cache]
  split_ifs <;> rfl

theorem mark_indices_eq (saveOk : Bool) (x : String) (s : MState) :
    (mark_prompt_as_used saveOk x s).1.disk.csvUsedIndices
      = s.disk.csvUsedIndices := by
  simp only [mark_prompt_as_used, load_cache, save_cache]
  split_ifs <;> rfl

theorem reset_indices_eq (saveOk : Bool) (s : MState) :
    (reset_cache saveOk s).1.disk.csvUsedIndices
      = s.disk.csvUsedIndices := by
  simp only [reset_cache, load_cache, save_cache]
  split_ifs <;> rfl

theorem get_next_indices_mono (hash : String → String)
    (sample : List Nat → Nat → List Nat) (saveOk : Bool) (cfg : Config)
    (s : MState) :
    s.disk.csvUsedIndices
      ⊆ (get_next_prompt hash sample saveOk cfg s).1.disk.csvUsedIndices := by
  simp only [get_next_prompt]
  cases hav : available_prompts (gnp_after_refill hash sample saveOk cfg s).2 with
  | nil =>
    dsimp only
    exact gnp_after_refill_disk_indices_mono hash sample saveOk cfg s
  | cons q rest =>
    dsimp only
    simp only [save_cache]
    split_ifs
    · exact gnp_after_refill_mem_indices_mono hash sample saveOk cfg s
    · exact gnp_after_refill_disk_indices_mono hash sample saveOk cfg s

/-- Both index sets after a refill stay inside the pre-state set plus
the sampled indices, whatever the sampler does. -/
theorem refill_indices_sub (hash : String → String)
    (sample : List Nat → Nat → List Nat) (saveOk : Bool) (cfg : Config)
    (force : Bool) (s : MState) :
    (refill_cache hash sample saveOk cfg force s).1.disk.csvUsedIndices
      ⊆ s.disk.csvUsedIndices ∪ (refill_picks sample cfg s).toFinset ∧
    (refill_cache hash sample saveOk cfg force s).1.memIndices
      ⊆ s.disk.csvUsedIndices ∪ (refill_picks sample cfg s).toFinset := by
  simp only [refill_cache, load_cache, save_cache, refill_picks, unusedSet,
    refill_sample_size, availInt]
  split_ifs <;>
    refine ⟨?_, ?_⟩ <;>
    first
      | exact Finset.subset_union_left
      | exact Finset.Subset.refl _

/-- What one refill admits: a duplicate-free list of dataset indices,
none previously admitted; both the persisted and the in-memory index set
end up inside the pre-state set plus exactly those indices. -/
theorem refill_admitted (hash : String → String)
    (sample : List Nat → Nat → List Nat) (saveOk : Bool) (cfg : Config)
    (force : Bool) (s : MState) (hs : SampleSpec sample) :
    ∃ admitted : List Nat, admitted.Nodup ∧
      (∀ i ∈ admitted, i ∉ s.disk.csvUsedIndices) ∧
      (refill_cache hash sample saveOk cfg force s).1.disk.csvUsedIndices
        ⊆ s.disk.csvUsedIndices ∪ admitted.toFinset ∧
      (refill_cache hash sample saveOk cfg force s).1.memIndices
        ⊆ s.disk.csvUsedIndices ∪ admitted.toFinset := by
  obtain ⟨hnd, hmem, -⟩ := hs
    (set_to_list cfg.csvRows.length (unusedSet cfg s))
    (refill_sample_size cfg s) (set_to_list_nodup _ _)
  refine ⟨refill_picks sample cfg s, hnd, ?_, refill_indices_sub hash sample
    saveOk cfg force s⟩
  intro i hi
  have hiu := hmem i hi
  have hSsub : unusedSet cfg s ⊆ Finset.range cfg.csvRows.length :=
    Finset.sdiff_subset
  rw [mem_set_to_list _ _ hSsub] at hiu
  exact (Finset.mem_sdiff.mp hiu).2

end CsvPromptManager

namespace CsvPromptManager

/-- Characterisation of a refill that reaches the sampling stage: the
conditions of lines 251, 258 and 269 are all false, so the call admits
`refill_new_prompts` (or fails without saving when the sample is
empty). -/
theorem refill_main_eq (hash : String → String)
    (sample : List Nat → Nat → List Nat) (saveOk : Bool) (cfg : Config)
    (force : Bool) (s : MState)
    (h1 : cfg.csvRows ≠ [])
    (h2 : ¬(¬force = true ∧ (cfg.min_cache_size : Int) ≤ availInt s.disk.cache))
    (h3 : ¬unusedSet cfg s = ∅) :
    refill_cache hash sample saveOk cfg force s
      = (if (refill_new_prompts hash sample cfg s).isEmpty
         then ({ disk := s.disk,
                 memIndices := s.disk.csvUsedIndices
                   ∪ (refill_picks sample cfg s).toFinset }, false)
         else save_cache saveOk
           { disk := s.disk,
             memIndices := s.disk.csvUsedIndices
               ∪ (refill_picks sample cfg s).toFinset }
           { prompts := s.disk.cache.prompts
               ++ refill_new_prompts hash sample cfg s,
             used_prompts := s.disk.cache.used_prompts,
             metadata :=
               { total_generated := s.disk.cache.metadata.total_generated
                   + (refill_new_prompts hash sample cfg s).length,
                 total_used := s.disk.cache.metadata.total_used } }) := by
  have h1b : cfg.csvRows.isEmpty = false := by
    simpa [List.isEmpty_iff] using h1
  simp only [refill_cache, load_cache, refill_new_prompts, refill_picks,
    unusedSet, refill_sample_size, availInt] at h2 h3 ⊢
  rw [h1b]
  rw [if_neg (by simp), if_neg h2, if_neg h3]

end CsvPromptManager

namespace CsvPromptManager

/-- C2 (no dataset re-admission): the persisted used-dataset-indices set
never shrinks under any operation — `get_next_prompt` and `refill_cache`
only grow it, while `return_prompt_to_pool`, `mark_prompt_as_used` and
`reset_cache` leave it exactly unchanged — and one refill admits a
duplicate-free batch of indices none of which was in the set before the
call, so no index is ever admitted twice. -/
theorem csv_indices_no_readmission (hash : String → String)
    (sample : List Nat → Nat → List Nat) (saveOk : Bool) (cfg : Config)
    (force : Bool) (x : String) (s : MState) (hs : SampleSpec sample) :
    s.disk.csvUsedIndices
      ⊆ (get_next_prompt hash sample saveOk cfg s).1.disk.csvUsedIndices ∧
    s.disk.csvUsedIndices
      ⊆ (refill_cache hash sample saveOk cfg force s).1.disk.csvUsedIndices ∧
    (return_prompt_to_pool saveOk x s).1.disk.csvUsedIndices
      = s.disk.csvUsedIndices ∧
    (mark_prompt_as_used saveOk x s).1.disk.csvUsedIndices
      = s.disk.csvUsedIndices ∧
    (reset_cache saveOk s).1.disk.csvUsedIndices = s.disk.csvUsedIndices ∧
    ∃ admitted : List Nat, admitted.Nodup ∧
      (∀ i ∈ admitted, i ∉ s.disk.csvUsedIndices) ∧
      (refill_cache hash sample saveOk cfg force s).1.disk.csvUsedIndices
        ⊆ s.disk.csvUsedIndices ∪ admitted.toFinset := by
  obtain ⟨a, h1, h2, h3, -⟩ := refill_admitted hash sample saveOk cfg force s hs
  exact ⟨get_next_indices_mono hash sample saveOk cfg s,
    refill_disk_indices_mono hash sample saveOk cfg force s,
    return_indices_eq saveOk x s, mark_indices_eq saveOk x s,
    reset_indices_eq saveOk s, a, h1, h2, h3⟩

/-- Witness for C2 on a concrete fresh state with a one-sentence
dataset. -/
theorem csv_indices_no_readmission_witness :
    state0.disk.csvUsedIndices
      ⊆ (get_next_prompt idHash sampleTake true cfg1 state0).1.disk.csvUsedIndices ∧
    state0.disk.csvUsedIndices
      ⊆ (refill_cache idHash sampleTake true cfg1 false state0).1.disk.csvUsedIndices ∧
    (return_prompt_to_pool true "a" state0).1.disk.csvUsedIndices
      = state0.disk.csvUsedIndices ∧
    (mark_prompt_as_used true "a" state0).1.disk.csvUsedIndices
      = state0.disk.csvUsedIndices ∧
    (reset_cache true state0).1.disk.csvUsedIndices = state0.disk.csvUsedIndices ∧
    ∃ admitted : List Nat, admitted.Nodup ∧
      (∀ i ∈ admitted, i ∉ state0.disk.csvUsedIndices) ∧
      (refill_cache idHash sampleTake true cfg1 false state0).1.disk.csvUsedIndices
        ⊆ state0.disk.csvUsedIndices ∪ admitted.toFinset :=
  csv_indices_no_readmission idHash sampleTake true cfg1 false "a" state0
    sampleTake_spec

end CsvPromptManager

namespace CsvPromptManager

/-- C3 (refill postcondition), with persistence succeeding: on a
non-empty dataset, a non-forced refill finding `available_count`
(`len(prompts) - len(used_prompts)`) at or above the low-water mark
changes nothing and returns success; otherwise, when unused dataset
indices remain, the call admits exactly
`min(max(batch_size, min_cache_size - available_count), |unused|)` new
entries, drawn without replacement from the unused indices, appended to
the pool with `usage_count = 0` and without marking any of them used. -/
theorem refill_cache_postcondition (hash : String → String)
    (sample : List Nat → Nat → List Nat) (cfg : Config) (force : Bool)
    (s : MState) (hs : SampleSpec sample) (hcsv : cfg.csvRows ≠ []) :
    ((force = false ∧ (cfg.min_cache_size : Int) ≤ availInt s.disk.cache) →
      refill_cache hash sample true cfg force s = (load_cache s, true)) ∧
    ((force = true ∨ availInt s.disk.cache < (cfg.min_cache_size : Int)) →
      unusedSet cfg s ≠ ∅ →
      (refill_picks sample cfg s).Nodup ∧
      (∀ i ∈ refill_picks sample cfg s, i ∈ unusedSet cfg s) ∧
      (refill_picks sample cfg s).length = refill_sample_size cfg s ∧
      (refill_cache hash sample true cfg force s).1.disk.cache.prompts
        = s.disk.cache.prompts ++ refill_new_prompts hash sample cfg s ∧
      (∀ p ∈ refill_new_prompts hash sample cfg s, p.usage_count = 0) ∧
      (refill_cache hash sample true cfg force s).1.disk.cache.used_prompts
        = s.disk.cache.used_prompts) := by
  have h1b : cfg.csvRows.isEmpty = false := by
    simpa [List.isEmpty_iff] using hcsv
  constructor
  · rintro ⟨hf, hge⟩
    subst hf
    simp only [refill_cache, load_cache, availInt] at hge ⊢
    rw [h1b]
    rw [if_neg (by simp)]
    rw [if_pos ⟨by simp, hge⟩]
  · intro hcond hne
    have h2 : ¬(¬force = true ∧
        (cfg.min_cache_size : Int) ≤ availInt s.disk.cache) := by
      rcases hcond with hf | hlt
      · rintro ⟨hnf, -⟩; exact hnf hf
      · rintro ⟨-, hge⟩; omega
    have hmain := refill_main_eq hash sample true cfg force s hcsv h2 hne
    have hSsub : unusedSet cfg s ⊆ Finset.range cfg.csvRows.length :=
      Finset.sdiff_subset
    obtain ⟨hnd, hmem, hlen⟩ := hs
      (set_to_list cfg.csvRows.length (unusedSet cfg s))
      (refill_sample_size cfg s) (set_to_list_nodup _ _)
    have hmem2 : ∀ i ∈ refill_picks sample cfg s, i ∈ unusedSet cfg s := by
      intro i hi
      have hx := hmem i hi
      rwa [mem_set_to_list _ _ hSsub] at hx
    have hk : refill_sample_size cfg s ≤ (unusedSet cfg s).card := by
      rw [refill_sample_size]
      exact Int.toNat_le.mpr (min_le_right _ _)
    have hlen2 : (refill_picks sample cfg s).length = refill_sample_size cfg s := by
      rw [refill_picks, hlen, set_to_list_length _ _ hSsub]
      exact Nat.min_eq_left hk
    have husage : ∀ p ∈ refill_new_prompts hash sample cfg s,
        p.usage_count = 0 := by
      intro p hp
      rw [refill_new_prompts] at hp
      obtain ⟨i, -, rfl⟩ := List.mem_map.mp hp
      rfl
    refine ⟨hnd, hmem2, hlen2, ?_, husage, ?_⟩
    · rw [hmain]
      by_cases he : (refill_new_prompts hash sample cfg s).isEmpty
      · rw [if_pos he]
        have hnil : refill_new_prompts hash sample cfg s = [] :=
          List.isEmpty_iff.mp he
        rw [hnil, List.append_nil]
      · rw [if_neg he, save_cache_true]
    · rw [hmain]
      by_cases he : (refill_new_prompts hash sample cfg s).isEmpty
      · rw [if_pos he]
      · rw [if_neg he, save_cache_true]

/-- Witness for C3: the fresh one-sentence state forces the refill path
(`available_count = 0 < 1`), admitting one entry. -/
theorem refill_cache_postcondition_witness :
    cfg1.csvRows ≠ [] ∧
    (((false : Bool) = false ∧
        (cfg1.min_cache_size : Int) ≤ availInt state0.disk.cache) →
      refill_cache idHash sampleTake true cfg1 false state0
        = (load_cache state0, true)) ∧
    (((false : Bool) = true ∨
        availInt state0.disk.cache < (cfg1.min_cache_size : Int)) →
      unusedSet cfg1 state0 ≠ ∅ →
      (refill_picks sampleTake cfg1 state0).Nodup ∧
      (∀ i ∈ refill_picks sampleTake cfg1 state0, i ∈ unusedSet cfg1 state0) ∧
      (refill_picks sampleTake cfg1 state0).length
        = refill_sample_size cfg1 state0 ∧
      (refill_cache idHash sampleTake true cfg1 false state0).1.disk.cache.prompts
        = state0.disk.cache.prompts
            ++ refill_new_prompts idHash sampleTake cfg1 state0 ∧
      (∀ p ∈ refill_new_prompts idHash sampleTake cfg1 state0,
          p.usage_count = 0) ∧
      (refill_cache idHash sampleTake true cfg1 false state0).1.disk.cache.used_prompts
        = state0.disk.cache.used_prompts) :=
  ⟨by decide,
   refill_cache_postcondition idHash sampleTake cfg1 false state0
     sampleTake_spec (by decide)⟩

end CsvPromptManager

namespace CsvPromptManager

/-- Witness for C1 on a one-entry cache. -/
theorem no_double_serve_witness :
    ((get_next_prompt idHash sampleTake true cfg0 state1).2 = some entry1) ∧
    (entry1.id ∉ state1.disk.cache.used_prompts ∧
     (get_next_prompt idHash sampleTake true cfg0 state1).1.disk.cache.used_prompts
       = state1.disk.cache.used_prompts ++ [entry1.id] ∧
     ∀ x ∈ state1.disk.cache.used_prompts, entry1.id ≠ x) :=
  ⟨by decide, no_double_serve idHash sampleTake cfg0 state1 entry1 (by decide)⟩

/-- Witness for C4 on the fully exhausted one-sentence state. -/
theorem exhaustion_terminality_witness :
    (∀ i < cfg1.csvRows.length, i ∈ exhaustedState.disk.csvUsedIndices) ∧
    (∀ p ∈ exhaustedState.disk.cache.prompts,
        p.id ∈ exhaustedState.disk.cache.used_prompts) ∧
    ((get_next_prompt idHash sampleTake true cfg1 exhaustedState).2 = none ∧
     (get_next_prompt idHash sampleTake true cfg1 exhaustedState).1.disk
       = exhaustedState.disk ∧
     (get_next_prompt idHash sampleTake true cfg1
        (get_next_prompt idHash sampleTake true cfg1 exhaustedState).1).2
       = none) :=
  ⟨by decide, by decide,
   exhaustion_terminality idHash sampleTake true cfg1 exhaustedState
     (by decide) (by decide)⟩

/-- C10 (truncated-hash id collision): ids are a deterministic hash of
the text, so two pool entries with the same text share one id; serving
that id (the first such entry, when every earlier pool entry is
unavailable with a different id) makes every entry bearing the id
unavailable at once, increments only the first entry in admission order,
and the matching return decrements only that same first entry, restoring
the persisted state. -/
theorem duplicate_text_id_collision (hash : String → String)
    (sample : List Nat → Nat → List Nat) (cfg : Config) (s : MState)
    (A B C : List PromptEntry) (e1 e2 : PromptEntry)
    (he1 : e1.id = hash e1.text) (he2 : e2.id = hash e2.text)
    (htext : e1.text = e2.text)
    (hprompts : s.disk.cache.prompts = A ++ (e1 :: (B ++ (e2 :: C))))
    (hA_used : ∀ q ∈ A, q.id ∈ s.disk.cache.used_prompts)
    (hA_ne : ∀ q ∈ A, q.id ≠ e1.id)
    (hx : e1.id ∉ s.disk.cache.used_prompts)
    (hmin : cfg.min_cache_size ≤ (available_prompts s.disk.cache).length) :
    e1.id = e2.id ∧
    (get_next_prompt hash sample true cfg s).2 = some e1 ∧
    (∀ q ∈ (get_next_prompt hash sample true cfg s).1.disk.cache.prompts,
        q.id = e1.id →
        q ∉ available_prompts (get_next_prompt hash sample true cfg s).1.disk.cache) ∧
    (get_next_prompt hash sample true cfg s).1.disk.cache.prompts
      = A ++ ({ e1 with usage_count := e1.usage_count + 1 } :: (B ++ (e2 :: C))) ∧
    (return_prompt_to_pool true e1.id
        (get_next_prompt hash sample true cfg s).1).1.disk = s.disk := by
  have hid : e1.id = e2.id := by rw [he1, he2, htext]
  have hfilA : A.filter
      (fun p => !(s.disk.cache.used_prompts.contains p.id)) = [] :=
    List.filter_eq_nil_iff.mpr (fun q hq => by simp [hA_used q hq])
  have hpe1 : (!(s.disk.cache.used_prompts.contains e1.id)) = true := by
    simp [hx]
  have havail : available_prompts s.disk.cache
      = e1 :: (B ++ (e2 :: C)).filter
          (fun p => !(s.disk.cache.used_prompts.contains p.id)) := by
    simp only [available_prompts]
    rw [hprompts, List.filter_append, hfilA, List.nil_append,
      List.filter_cons, if_pos hpe1]
  rw [get_next_prompt, gnp_after_refill_no_refill hash sample true cfg s hmin]
  dsimp only
  rw [havail]
  dsimp only
  rw [save_cache_true]
  dsimp only
  refine ⟨hid, rfl, ?_, ?_, ?_⟩
  · intro q hq hqid hmem
    have hm := (mem_available_prompts _ q).mp hmem
    exact hm.2 (by
      rw [hqid]
      exact List.mem_append_right _ (List.mem_singleton.mpr rfl))
  · rw [hprompts, bump_append_ne _ _ _ _ hA_ne]
    have hhead : bump_first_usage (fun n => n + 1) e1.id (e1 :: (B ++ (e2 :: C)))
        = { e1 with usage_count := e1.usage_count + 1 } :: (B ++ (e2 :: C)) := by
      unfold bump_first_usage
      rw [if_pos rfl]
    rw [hhead]
  · have hin : e1.id ∈ s.disk.cache.used_prompts ++ [e1.id] :=
      List.mem_append_right _ (List.mem_singleton.mpr rfl)
    simp only [return_prompt_to_pool, load_cache, save_cache_true]
    rw [if_pos hin]
    have herase : (s.disk.cache.used_prompts ++ [e1.id]).erase e1.id
        = s.disk.cache.used_prompts := by
      rw [List.erase_append_right _ hx, List.erase_cons_head, List.append_nil]
    have hbump : bump_first_usage (fun n => n - 1) e1.id
        (bump_first_usage (fun n => n + 1) e1.id s.disk.cache.prompts)
          = s.disk.cache.prompts := by
      rw [bump_bump]
      have hfun : (fun n : Nat => n + 1 - 1) = fun n : Nat => n :=
        funext fun n => Nat.add_sub_cancel n 1
      rw [hfun, bump_id]
    simp only [herase, hbump, Nat.add_sub_cancel]

end CsvPromptManager

namespace CsvPromptManager

/-- Witness for C10: two entries built from the same sentence text. -/
theorem duplicate_text_id_collision_witness :
    entryA.text = entryB.text ∧
    (entryA.id = entryB.id ∧
     (get_next_prompt idHash sampleTake true cfg0 dupTextState).2 = some entryA ∧
     (∀ q ∈ (get_next_prompt idHash sampleTake true cfg0
          dupTextState).1.disk.cache.prompts,
        q.id = entryA.id →
        q ∉ available_prompts (get_next_prompt idHash sampleTake true cfg0
              dupTextState).1.disk.cache) ∧
     (get_next_prompt idHash sampleTake true cfg0 dupTextState).1.disk.cache.prompts
       = [] ++ ({ entryA with usage_count := entryA.usage_count + 1 }
           :: ([] ++ (entryB :: []))) ∧
     (return_prompt_to_pool true entryA.id
        (get_next_prompt idHash sampleTake true cfg0 dupTextState).1).1.disk
       = dupTextState.disk) :=
  ⟨rfl,
   duplicate_text_id_collision idHash sampleTake cfg0 dupTextState [] [] []
     entryA entryB rfl rfl rfl rfl (by simp) (by simp) (by decide) (by decide)⟩

end CsvPromptManager

namespace CsvPromptManager

/-- C9 counterexample: on a missing/unreadable source (`raw = none`) the
load returns the ordinary value `[]` — `_load_csv_data` catches every
exception (lines 42-44) and no `DataSourceError` exists anywhere in the
code — whereas the claim requires an error to be surfaced.  The
spec-following definition disagrees with the source's behaviour at this
input. -/
theorem load_failure_counterexample :
    load_csv_data_result none = Except.ok [] ∧
    load_csv_data_specified none = Except.error "DataSourceError" ∧
    load_csv_data_result none ≠ load_csv_data_specified none := by
  refine ⟨rfl, rfl, fun h => ?_⟩
  rw [load_csv_data_result, load_csv_data_specified] at h
  exact Except.noConfusion h

/-- C9 amended: a missing/unreadable source makes `_load_csv_data`
swallow the exception (logging it) and return the empty row list; the
failure then surfaces to callers not as an exception but as
`refill_cache` returning `False` with the persisted state untouched
("No CSV data available for refilling cache", line 251-253). -/
theorem load_failure_amended :
    load_csv_data none = [] ∧
    (∀ raw, load_csv_data_result raw = Except.ok (load_csv_data raw)) ∧
    (∀ (hash : String → String) (sample : List Nat → Nat → List Nat)
        (saveOk : Bool) (mcs bs : Nat) (force : Bool) (s : MState),
      (refill_cache hash sample saveOk
          { min_cache_size := mcs, batch_size := bs,
            csvRows := load_csv_data none } force s).2 = false ∧
      (refill_cache hash sample saveOk
          { min_cache_size := mcs, batch_size := bs,
            csvRows := load_csv_data none } force s).1.disk = s.disk) :=
  ⟨rfl, fun _ => rfl, fun _ _ _ _ _ _ _ => ⟨rfl, rfl⟩⟩

end CsvPromptManager

namespace SmartSelector

/-- Strategy dispatch (lines 123-133) for the balanced branch. -/
theorem execute_balanced (rng : Rng) (db : DB) (uid : Nat) (strat : Strategy)
    (h1 : strat.stype = "balanced") :
    execute_selection_strategy rng db uid strat
      = select_balanced rng db (base_pool db uid) strat := by
  simp [execute_selection_strategy, h1]

/-- Strategy dispatch (lines 123-133) for the onboarding branch. -/
theorem execute_onboarding (rng : Rng) (db : DB) (uid : Nat) (strat : Strategy)
    (h1 : strat.stype = "onboarding") :
    execute_selection_strategy rng db uid strat
      = select_for_onboarding rng (base_pool db uid) strat := by
  simp [execute_selection_strategy, h1]

/-- `select_balanced` on a single candidate that passes the quality floor
returns that candidate whenever its score is positive and at least the
drawn uniform value. -/
theorem select_balanced_singleton (rng : Rng) (db : DB) (strat : Strategy)
    (p : DPrompt)
    (hq : qge p.quality_score 0.7 = true)
    (hpos : 0 < calculate_candidate_score db strat p)
    (hr : rng.uniform ≤ calculate_candidate_score db strat p) :
    select_balanced rng db [p] strat = some p := by
  simp only [select_balanced, List.filter_cons, hq, if_true, List.filter_nil,
    List.isEmpty_cons, List.map_cons, List.map_nil, sortByScoreDesc,
    insertByScore, weightedPick]
  rw [if_neg (by simp)]
  have h1 : (1 ⊔ ([(p, calculate_candidate_score db strat p)]).length / 5)
      = 1 := by simp
  rw [h1]
  have h2 : List.take 1 [(p, calculate_candidate_score db strat p)]
      = [(p, calculate_candidate_score db strat p)] := rfl
  rw [h2]
  have h3 : (List.map (fun x => x.2)
      [(p, calculate_candidate_score db strat p)]).sum
      = calculate_candidate_score db strat p := by simp
  rw [h3, if_neg (ne_of_gt hpos)]
  have h4 : weightedPick rng.uniform 0
      [(p, calculate_candidate_score db strat p)] = some p := by
    simp only [weightedPick]
    rw [if_pos (by rw [zero_add]; exact hr)]
  rw [h4]

/-- `determine_strategy` picks onboarding when there is no critical gap,
no (usable) category preference, and fewer than 5 recorded
translations. -/
theorem determine_strategy_onboarding (gaps : CoverageGaps) (total : Nat)
    (critical : CriticalGaps) (hc : critical.critical_gaps = [])
    (ht : total < 5) :
    determine_strategy gaps total critical none
      = { defaultStrategy with
          stype := "onboarding", difficulty_target := "basic",
          priority_categories := ["greetings", "conversation", "family"],
          source_preference := some "corpus" } := by
  rw [determine_strategy]
  rw [if_neg (by simp [hc])]
  rw [if_neg (by simp)]
  rw [if_pos ht]

end SmartSelector

namespace SmartSelector

/-- C7 amended (onboarding restriction): for a requester with fewer than
5 recorded translations OF ANY STATUS (the code's `total_completed`
counts every `Translation` row, not only accepted ones), when no category
sits below 25% completion and no preferred category is given,
`select_next_prompt` returns nothing or a prompt from the beginner
allowlist with `difficulty_level = 'basic'`, a recorded quality score of
at least 0.85, and a high-quality source type. -/
theorem onboarding_restriction_amended (rng : Rng) (db : DB) (uid : Nat)
    (p : DPrompt) (hchoose : ChooseSpec rng.choose)
    (htotal : get_user_progress_total db uid < 5)
    (hnogap : ∀ d ∈ db.coverage, ¬(d.completion_percentage < 25))
    (hres : select_next_prompt rng db uid none = some p) :
    p.category ∈ ["greetings", "conversation", "family"] ∧
    p.difficulty_level = "basic" ∧
    (∃ q, p.quality_score = some q ∧ (0.85 : ℚ) ≤ q) ∧
    (p.source_type = "corpus" ∨ p.source_type = "conversation") := by
  rw [select_next_prompt] at hres
  by_cases hu : uid ∈ db.users
  case neg => rw [if_neg hu] at hres; exact absurd hres (by simp)
  rw [if_pos hu] at hres
  have hcrit : (detect_critical_gaps db).critical_gaps = [] := by
    simp only [detect_critical_gaps]
    rw [List.map_eq_nil_iff]
    exact List.filter_eq_nil_iff.mpr (fun d hd => by simpa using hnogap d hd)
  rw [determine_strategy_onboarding _ _ _ hcrit htotal] at hres
  rw [execute_onboarding _ _ _ _ rfl] at hres
  rw [select_for_onboarding] at hres
  have hp := hchoose _ p hres
  rw [List.mem_filter] at hp
  obtain ⟨-, hcond⟩ := hp
  simp only [Bool.and_eq_true, Bool.or_eq_true, beq_iff_eq,
    List.elem_eq_mem, decide_eq_true_eq] at hcond
  obtain ⟨⟨⟨hcat, hdiff⟩, hq⟩, hsrc⟩ := hcond
  refine ⟨hcat, hdiff, ?_, hsrc⟩
  cases hqs : p.quality_score with
  | none => rw [hqs] at hq; simp [qge] at hq
  | some v =>
    rw [hqs] at hq
    exact ⟨v, rfl, by simpa [qge] using hq⟩

end SmartSelector

namespace SmartSelector

/-- Witness for the amended C7: a brand-new user receives the
onboarding-eligible greeting prompt. -/
theorem onboarding_restriction_witness :
    ChooseSpec headRng.choose ∧
    get_user_progress_total db7b 2 < 5 ∧
    (∀ d ∈ db7b.coverage, ¬(d.completion_percentage < 25)) ∧
    select_next_prompt headRng db7b 2 none = some greetingPrompt ∧
    (greetingPrompt.category ∈ ["greetings", "conversation", "family"] ∧
     greetingPrompt.difficulty_level = "basic" ∧
     (∃ q, greetingPrompt.quality_score = some q ∧ (0.85 : ℚ) ≤ q) ∧
     (greetingPrompt.source_type = "corpus" ∨
      greetingPrompt.source_type = "conversation")) := by
  have hsel : select_next_prompt headRng db7b 2 none = some greetingPrompt := by
    simp [select_next_prompt, execute_selection_strategy, determine_strategy,
      detect_critical_gaps, analyze_gaps, corpus_percentage,
      get_user_progress_total, base_pool, get_completed_prompt_ids,
      select_for_onboarding, qge, db7b, greetingPrompt, defaultStrategy,
      headRng]
    norm_num
  exact ⟨headRng_choose_spec, by simp [get_user_progress_total, db7b],
    by simp [db7b], hsel,
    onboarding_restriction_amended headRng db7b 2 greetingPrompt
      headRng_choose_spec (by simp [get_user_progress_total, db7b])
      (by simp [db7b]) hsel⟩

/-- C7 counterexample: user 1 has five REJECTED translations (zero
accepted, satisfying the claim's "fewer than 5 accepted"), yet because
`get_user_progress` counts all translations (line 269)
`total_completed = 5` skips onboarding, the balanced strategy runs, and
the requester is served an advanced prompt from outside the beginner
allowlist — refuting the claim as stated. -/
theorem onboarding_counterexample :
    accepted_count db7 1 < 5 ∧
    (∀ d ∈ db7.coverage, ¬(d.completion_percentage < 25)) ∧
    select_next_prompt headRng db7 1 none = some weatherPrompt ∧
    weatherPrompt.category ∉ ["greetings", "conversation", "family"] ∧
    weatherPrompt.difficulty_level ≠ "basic" := by
  have hstrat : determine_strategy (analyze_gaps db7)
      (get_user_progress_total db7 1) (detect_critical_gaps db7) none
      = defaultStrategy := by
    simp [determine_strategy, detect_critical_gaps, analyze_gaps, db7,
      corpus_percentage, weatherPrompt, rejectedTr, get_user_progress_total,
      defaultStrategy]
    try norm_num
  have hbase : base_pool db7 1 = [weatherPrompt] := by
    simp [base_pool, get_completed_prompt_ids, db7, weatherPrompt, rejectedTr]
  have hscore : calculate_candidate_score db7 defaultStrategy weatherPrompt
      = 12/25 := by
    simp [calculate_candidate_score, get_category_priority_score, db7,
      weatherPrompt, defaultStrategy]
    norm_num [max_def, min_def]
  refine ⟨by simp [accepted_count, db7, rejectedTr], by norm_num [db7], ?_,
    by simp [weatherPrompt], by simp [weatherPrompt]⟩
  rw [select_next_prompt, if_pos (by simp [db7]), hstrat,
    execute_balanced headRng db7 1 defaultStrategy rfl, hbase,
    select_balanced_singleton headRng db7 defaultStrategy weatherPrompt
      (by simp [qge, weatherPrompt]; try norm_num)
      (by rw [hscore]; norm_num)
      (by rw [hscore]; norm_num [headRng])]

end SmartSelector

namespace SmartSelector

/-- C8 amended (candidate score formula): with the balanced weights
(w1=0.4 on coverage, w2=0.2 on quality, w3=0.1 on the usage term) and no
strategy source preference, a candidate with a recorded nonzero,
nonnegative quality score and a coverage record scores
`w1*max(0.1, (100-completion)/100) + w2*quality
+ w3*(1 - min(usage*0.1, 0.5))` PLUS a source bonus of 0.1 when its
source type is 'corpus' (0 otherwise) — the bonus term
(lines 252-258) is missing from the claim.  The code has no upper clamp
at 1.0 on the priority; for completion ≥ 0 the two coincide. -/
theorem candidate_score_formula_amended (db : DB) (strat : Strategy)
    (p : DPrompt) (q : ℚ) (d : DCoverage)
    (hw1 : strat.w_coverage_gaps = 0.4) (hw2 : strat.w_quality_balance = 0.2)
    (hw3 : strat.w_randomness = 0.1) (hsp : strat.source_preference = none)
    (hq : p.quality_score = some q) (hq0 : q ≠ 0) (hqpos : 0 ≤ q)
    (hd : db.coverage.find? (fun c => c.category == p.category) = some d) :
    calculate_candidate_score db strat p
      = 0.4 * max 0.1 ((100 - d.completion_percentage) / 100)
        + 0.2 * q + 0.1 * (1 - min ((p.usage_count : ℚ) * 0.1) 0.5)
        + (if p.source_type = "corpus" then (0.1 : ℚ) else 0) := by
  have hpri : get_category_priority_score db p.category
      = max 0.1 ((100 - d.completion_percentage) / 100) := by
    rw [get_category_priority_score, hd]
  simp only [calculate_candidate_score, hq, hpri, hw1, hw2, hw3, hsp]
  rw [if_neg hq0]
  rw [if_neg (show ¬(none : Option String) = some p.source_type by simp)]
  have hb : (if (p.source_type == "corpus") = true then (0.1:ℚ) else 0)
      = if p.source_type = "corpus" then (0.1:ℚ) else 0 := by
    by_cases hc : p.source_type = "corpus"
    · rw [if_pos (by simpa using hc), if_pos hc]
    · rw [if_neg (by simpa using hc), if_neg hc]
  rw [hb]
  have h1 : (0.1:ℚ) ≤ max 0.1 ((100 - d.completion_percentage) / 100) :=
    le_max_left _ _
  have h2 : min ((p.usage_count : ℚ) * 0.1) 0.5 ≤ 0.5 := min_le_right _ _
  have h3 : (0:ℚ) ≤ if p.source_type = "corpus" then (0.1:ℚ) else 0 := by
    split <;> norm_num
  rw [max_eq_right (by nlinarith)]

end SmartSelector

namespace SmartSelector

/-- C8 counterexample: in the balanced strategy a corpus-source candidate
receives a +0.1 source bonus (line 255-256), so its selection score is
0.54, not the 0.44 the claim's three-term formula yields. -/
theorem score_formula_counterexample :
    defaultStrategy.stype = "balanced" ∧
    farmingPrompt.source_type = "corpus" ∧
    farmingPrompt.quality_score = some (9/10) ∧
    calculate_candidate_score db8 defaultStrategy farmingPrompt
      ≠ 0.4 * get_category_priority_score db8 farmingPrompt.category
        + 0.2 * (9/10)
        + 0.1 * (1 - min ((farmingPrompt.usage_count : ℚ) * 0.1) 0.5) := by
  refine ⟨rfl, rfl, by norm_num [farmingPrompt], ?_⟩
  simp [calculate_candidate_score, get_category_priority_score, db8,
    farmingPrompt, defaultStrategy]
  norm_num [max_def, min_def]

/-- Witness for the amended C8 on a community-source candidate (bonus 0):
score = 0.4*0.4 + 0.2*0.9 + 0.1*(1-0.3) + 0 = 0.41. -/
theorem candidate_score_formula_witness :
    defaultStrategy.source_preference = none ∧
    marketPrompt.quality_score = some (9/10) ∧
    db8.coverage.find? (fun c => c.category == marketPrompt.category)
      = some { category := "farming", target_count := 100, current_count := 60,
               completion_percentage := 60, avg_quality_score := 0.8 } ∧
    calculate_candidate_score db8 defaultStrategy marketPrompt
      = 0.4 * max 0.1 ((100 - (60:ℚ)) / 100)
        + 0.2 * (9/10)
        + 0.1 * (1 - min ((marketPrompt.usage_count : ℚ) * 0.1) 0.5)
        + (if marketPrompt.source_type = "corpus" then (0.1 : ℚ) else 0) :=
  ⟨rfl, by norm_num [marketPrompt], by simp [db8, marketPrompt],
   candidate_score_formula_amended db8 defaultStrategy marketPrompt (9/10)
     { category := "farming", target_count := 100, current_count := 60,
       completion_percentage := 60, avg_quality_score := 0.8 }
     rfl rfl rfl rfl (by norm_num [marketPrompt]) (by norm_num) (by norm_num)
     (by simp [db8, marketPrompt])⟩

end SmartSelector
